import Mathlib

/-!
Verification of the FastLED multi-lane SPI transposition and hardware
transmitter core.

The quad transposer interface (`SPITransposerQuad` in
`platforms/shared/spi_transposer_quad.h`) is exercised by
`tests/test_quad_spi.cpp` but its implementation file is not part of this
source snapshot, so `transpose` below is modelled from the specification and
cross-checked against the repository's own test vectors and against the
source-level de-interleaver `SpiHw4Stub::extractLanes`
(`platforms/stub/spi_quad_stub.cpp`), which is embedded from the source.

Bytes are modelled as natural numbers; where a value is produced by C++
`uint8_t` arithmetic the definitions take remainders explicitly.
-/

namespace FastLED

/-- A lane's payload and its repeating padding pattern
(`SPITransposerQuad::LaneData`). -/
structure LaneData where
  data : List Nat
  padding : List Nat
deriving Repr, DecidableEq

/-- Length of the data of an optional lane slot; absent slots count as 0. -/
def laneLen : Option LaneData → Nat
  | none => 0
  | some ld => ld.data.length

/-- Modelled from the spec: `max_length = max(len(slot.data) for slot in slots
if present); if no slot present, max_length = 0`. -/
def maxLaneLength (l0 l1 l2 l3 : Option LaneData) : Nat :=
  max (max (laneLen l0) (laneLen l1)) (max (laneLen l2) (laneLen l3))

/-- Modelled from the spec: the fallback padding pattern for absent slots is
the first present lane's pattern; if no lane is present, a zero byte. -/
def fallbackPadding (l0 l1 l2 l3 : Option LaneData) : List Nat :=
  match l0, l1, l2, l3 with
  | some ld, _, _, _ => ld.padding
  | none, some ld, _, _ => ld.padding
  | none, none, some ld, _ => ld.padding
  | none, none, none, some ld => ld.padding
  | none, none, none, none => [0]

/-- Byte `i` of a padding region tiled from `pat`
(pattern index = `i mod pat.length`). -/
def tileAt (pat : List Nat) (i : Nat) : Nat :=
  pat.getD (i % pat.length) 0

/-- Modelled from the spec: the effective byte sequence of one lane slot fed
into interleaving — `max_length - len(data)` padding bytes tiled from the
lane's pattern, then the lane's real data; an absent slot is all padding from
the fallback pattern. -/
def effectiveLane (maxLen : Nat) (fallback : List Nat) : Option LaneData → List Nat
  | none => (List.range maxLen).map (tileAt fallback)
  | some ld => (List.range (maxLen - ld.data.length)).map (tileAt ld.padding) ++ ld.data

/-- The `k`-th bit of byte `b`, counted MSB-first (`k = 0` is bit 7). -/
def bitMSB (b k : Nat) : Nat := (b >>> (7 - k)) % 2

/-- The `j`-th 2-bit group of byte `b`, MSB pair first
(`j = 0` is bits 7..6). -/
def crumb (b j : Nat) : Nat := (b >>> (2 * (3 - j))) % 4

/-- Modelled from the spec: output byte `j` of one source-byte quadruplet,
assembled bit by bit — from MSB to LSB it carries bits `2j, 2j+1` (MSB-first)
of lane3, lane2, lane1 and lane0's current source bytes. -/
def quadOutByte (b0 b1 b2 b3 j : Nat) : Nat :=
  bitMSB b3 (2 * j) * 128 + bitMSB b3 (2 * j + 1) * 64 +
  bitMSB b2 (2 * j) * 32 + bitMSB b2 (2 * j + 1) * 16 +
  bitMSB b1 (2 * j) * 8 + bitMSB b1 (2 * j + 1) * 4 +
  bitMSB b0 (2 * j) * 2 + bitMSB b0 (2 * j + 1)

/-- Modelled from the spec: the interleaved wire stream — output byte `i`
packs the `(i % 4)`-th 2-bit group of each effective lane's byte `i / 4`. -/
def interleave4 (e0 e1 e2 e3 : List Nat) (maxLen : Nat) : List Nat :=
  (List.range (maxLen * 4)).map fun i =>
    quadOutByte (e0.getD (i / 4) 0) (e1.getD (i / 4) 0)
      (e2.getD (i / 4) 0) (e3.getD (i / 4) 0) (i % 4)

/-- Result of a transpose call: success flag, optional error descriptor, and
the (possibly rewritten) output buffer. -/
structure TransposeResult where
  ok : Bool
  error : Option String
  output : List Nat
deriving Repr, DecidableEq

/-- A present lane that needs padding but has an empty pattern is a fatal
error per the spec. -/
def needsPadError (maxLen : Nat) : Option LaneData → Bool
  | none => false
  | some ld => decide (ld.data.length < maxLen) && decide (ld.padding = [])

/-- Modelled from the spec: `SPITransposerQuad::transpose` — validate
`output.length == max_length * 4` (failing without touching the output),
reject a deficient lane with an empty padding pattern, otherwise write the
interleaved stream of the four effective lanes. -/
def transpose (l0 l1 l2 l3 : Option LaneData) (output : List Nat) : TransposeResult :=
  let maxLen := maxLaneLength l0 l1 l2 l3
  if output.length ≠ maxLen * 4 then
    { ok := false, error := some "output size mismatch", output := output }
  else if needsPadError maxLen l0 || needsPadError maxLen l1 ||
      needsPadError maxLen l2 || needsPadError maxLen l3 then
    { ok := false, error := some "empty padding pattern", output := output }
  else
    let fb := fallbackPadding l0 l1 l2 l3
    { ok := true, error := none,
      output := interleave4 (effectiveLane maxLen fb l0) (effectiveLane maxLen fb l1)
        (effectiveLane maxLen fb l2) (effectiveLane maxLen fb l3) maxLen }

/-- One reconstructed byte of `SpiHw4Stub::extractLanes`
(`platforms/stub/spi_quad_stub.cpp` lines 158-189): lane `lane`'s byte `k`
ORs together, for each of the four interleaved bytes of quadruplet `k` that
lies inside the captured buffer, the 2-bit group at bit position `2*lane`,
shifted to position `(3 - nibble_idx) * 2`. -/
def extractLaneByte (buf : List Nat) (lane k : Nat) : Nat :=
  [0, 1, 2, 3].foldl (fun acc j =>
    if 4 * k + j < buf.length then
      acc ||| ((((buf.getD (4 * k + j) 0) >>> (lane * 2)) % 4) <<< ((3 - j) * 2))
    else acc) 0

/-- `SpiHw4Stub::extractLanes`: de-interleave the captured transmission into
`numLanes` buffers of `bytesPerLane` bytes each. -/
def extractLanes (buf : List Nat) (numLanes bytesPerLane : Nat) : List (List Nat) :=
  (List.range numLanes).map fun lane =>
    (List.range bytesPerLane).map fun k => extractLaneByte buf lane k

/-- Slot number `ℓ` among the four arguments of a transpose call. -/
def slotSel (ℓ : Nat) (s0 s1 s2 s3 : Option LaneData) : Option LaneData :=
  if ℓ = 0 then s0 else if ℓ = 1 then s1 else if ℓ = 2 then s2 else s3

/-- A slot whose padding pattern is usable: absent, or with a non-empty
pattern. -/
def slotPadOk : Option LaneData → Prop
  | none => True
  | some ld => ld.padding ≠ []

/-- All bytes of a slot's data and pattern are in range. -/
def slotBytesLt : Option LaneData → Prop
  | none => True
  | some ld => (∀ x ∈ ld.data, x < 256) ∧ ∀ x ∈ ld.padding, x < 256

-- ============================================================
-- Arithmetic lemmas about the bit packing
-- ============================================================

theorem bitMSB_pair_eq_crumb (b j : Nat) (hj : j < 4) :
    bitMSB b (2 * j) * 2 + bitMSB b (2 * j + 1) = crumb b j := by
  interval_cases j <;>
    simp only [bitMSB, crumb, Nat.shiftRight_eq_div_pow] <;> norm_num <;> omega

theorem lor_shift_sum : ∀ a b c d : Fin 4,
    ((((0 : Nat) ||| ((a : Nat) <<< 6)) ||| ((b : Nat) <<< 4)) |||
      ((c : Nat) <<< 2)) ||| (d : Nat) =
    (a : Nat) * 64 + (b : Nat) * 16 + (c : Nat) * 4 + (d : Nat) := by
  decide

theorem lor_shift_extract : ∀ a b c d : Fin 4,
    (((((0 : Nat) ||| ((a : Nat) <<< 6)) ||| ((b : Nat) <<< 4)) |||
        ((c : Nat) <<< 2)) ||| (d : Nat)) >>> 0 % 4 = (d : Nat) ∧
    (((((0 : Nat) ||| ((a : Nat) <<< 6)) ||| ((b : Nat) <<< 4)) |||
        ((c : Nat) <<< 2)) ||| (d : Nat)) >>> 2 % 4 = (c : Nat) ∧
    (((((0 : Nat) ||| ((a : Nat) <<< 6)) ||| ((b : Nat) <<< 4)) |||
        ((c : Nat) <<< 2)) ||| (d : Nat)) >>> 4 % 4 = (b : Nat) ∧
    (((((0 : Nat) ||| ((a : Nat) <<< 6)) ||| ((b : Nat) <<< 4)) |||
        ((c : Nat) <<< 2)) ||| (d : Nat)) >>> 6 % 4 = (a : Nat) := by
  decide

theorem crumb_lt_four (b j : Nat) : crumb b j < 4 := Nat.mod_lt _ (by norm_num)

theorem quadOutByte_eq_lor (b0 b1 b2 b3 j : Nat) (hj : j < 4) :
    quadOutByte b0 b1 b2 b3 j =
      (((0 ||| (crumb b3 j <<< 6)) ||| (crumb b2 j <<< 4)) |||
        (crumb b1 j <<< 2)) ||| crumb b0 j := by
  rw [lor_shift_sum ⟨crumb b3 j, crumb_lt_four b3 j⟩ ⟨crumb b2 j, crumb_lt_four b2 j⟩
    ⟨crumb b1 j, crumb_lt_four b1 j⟩ ⟨crumb b0 j, crumb_lt_four b0 j⟩]
  have h0 := bitMSB_pair_eq_crumb b0 j hj
  have h1 := bitMSB_pair_eq_crumb b1 j hj
  have h2 := bitMSB_pair_eq_crumb b2 j hj
  have h3 := bitMSB_pair_eq_crumb b3 j hj
  simp only [quadOutByte]
  omega

theorem crumb_reassemble (b : Nat) (hb : b < 256) :
    (((0 ||| (crumb b 0 <<< 6)) ||| (crumb b 1 <<< 4)) |||
      (crumb b 2 <<< 2)) ||| crumb b 3 = b := by
  rw [lor_shift_sum ⟨crumb b 0, crumb_lt_four b 0⟩ ⟨crumb b 1, crumb_lt_four b 1⟩
    ⟨crumb b 2, crumb_lt_four b 2⟩ ⟨crumb b 3, crumb_lt_four b 3⟩]
  simp only [crumb, Nat.shiftRight_eq_div_pow]
  norm_num
  omega

theorem getD_map_range (f : Nat → Nat) (n i : Nat) (h : i < n) :
    ((List.range n).map f).getD i 0 = f i := by
  rw [List.getD_eq_getElem _ _ (by simpa using h)]
  simp

theorem interleave4_length (e0 e1 e2 e3 : List Nat) (L : Nat) :
    (interleave4 e0 e1 e2 e3 L).length = L * 4 := by
  simp [interleave4]

theorem interleave4_getD (e0 e1 e2 e3 : List Nat) (L i : Nat) (h : i < L * 4) :
    (interleave4 e0 e1 e2 e3 L).getD i 0 =
      quadOutByte (e0.getD (i / 4) 0) (e1.getD (i / 4) 0)
        (e2.getD (i / 4) 0) (e3.getD (i / 4) 0) (i % 4) := by
  unfold interleave4
  rw [getD_map_range _ _ _ h]

/-- Reading lane `lane`'s 2-bit group of a packed output byte gives the
corresponding source crumb. -/
theorem quadOutByte_extract (b0 b1 b2 b3 j lane : Nat) (hj : j < 4) (hl : lane < 4) :
    (quadOutByte b0 b1 b2 b3 j >>> (lane * 2)) % 4 =
      crumb (if lane = 0 then b0 else if lane = 1 then b1 else
        if lane = 2 then b2 else b3) j := by
  rw [quadOutByte_eq_lor b0 b1 b2 b3 j hj]
  have h := lor_shift_extract ⟨crumb b3 j, crumb_lt_four b3 j⟩ ⟨crumb b2 j, crumb_lt_four b2 j⟩
    ⟨crumb b1 j, crumb_lt_four b1 j⟩ ⟨crumb b0 j, crumb_lt_four b0 j⟩
  interval_cases lane <;> simp_all

theorem extractLaneByte_interleave4 (e0 e1 e2 e3 : List Nat) (L k lane : Nat)
    (hk : k < L) (hl : lane < 4) :
    extractLaneByte (interleave4 e0 e1 e2 e3 L) lane k =
      (((0 ||| (crumb ((if lane = 0 then e0 else if lane = 1 then e1 else
          if lane = 2 then e2 else e3).getD k 0) 0 <<< 6)) |||
        (crumb ((if lane = 0 then e0 else if lane = 1 then e1 else
          if lane = 2 then e2 else e3).getD k 0) 1 <<< 4)) |||
        (crumb ((if lane = 0 then e0 else if lane = 1 then e1 else
          if lane = 2 then e2 else e3).getD k 0) 2 <<< 2)) |||
        crumb ((if lane = 0 then e0 else if lane = 1 then e1 else
          if lane = 2 then e2 else e3).getD k 0) 3 := by
  have g0 : 4 * k + 0 < L * 4 := by omega
  have g1 : 4 * k + 1 < L * 4 := by omega
  have g2 : 4 * k + 2 < L * 4 := by omega
  have g3 : 4 * k + 3 < L * 4 := by omega
  simp only [extractLaneByte, List.foldl, interleave4_length]
  rw [if_pos g0, if_pos g1, if_pos g2, if_pos g3,
    interleave4_getD _ _ _ _ _ _ g0, interleave4_getD _ _ _ _ _ _ g1,
    interleave4_getD _ _ _ _ _ _ g2, interleave4_getD _ _ _ _ _ _ g3]
  have d0 : (4 * k + 0) / 4 = k := by omega
  have d1 : (4 * k + 1) / 4 = k := by omega
  have d2 : (4 * k + 2) / 4 = k := by omega
  have d3 : (4 * k + 3) / 4 = k := by omega
  have m0 : (4 * k + 0) % 4 = 0 := by omega
  have m1 : (4 * k + 1) % 4 = 1 := by omega
  have m2 : (4 * k + 2) % 4 = 2 := by omega
  have m3 : (4 * k + 3) % 4 = 3 := by omega
  rw [d0, d1, d2, d3, m0, m1, m2, m3,
    quadOutByte_extract _ _ _ _ _ _ (by omega) hl,
    quadOutByte_extract _ _ _ _ _ _ (by omega) hl,
    quadOutByte_extract _ _ _ _ _ _ (by omega) hl,
    quadOutByte_extract _ _ _ _ _ _ (by omega) hl]
  interval_cases lane <;> simp [List.getD]

/-- De-interleaving one lane of the interleaved stream recovers that lane's
effective byte sequence. -/
theorem extract_lane_of_interleave4 (e0 e1 e2 e3 : List Nat) (L lane : Nat) (hl : lane < 4)
    (hlen : (if lane = 0 then e0 else if lane = 1 then e1 else
      if lane = 2 then e2 else e3).length = L)
    (hb : ∀ x ∈ (if lane = 0 then e0 else if lane = 1 then e1 else
      if lane = 2 then e2 else e3), x < 256) :
    (List.range L).map (fun k => extractLaneByte (interleave4 e0 e1 e2 e3 L) lane k) =
      (if lane = 0 then e0 else if lane = 1 then e1 else if lane = 2 then e2 else e3) := by
  apply List.ext_getElem (by simp [hlen])
  intro n h1 h2
  have hn : n < L := by simpa using h1
  simp only [List.getElem_map, List.getElem_range]
  rw [extractLaneByte_interleave4 e0 e1 e2 e3 L n lane hn hl,
    List.getD_eq_getElem _ _ h2]
  exact crumb_reassemble _ (hb _ (List.getElem_mem h2))


theorem laneLen_le_max (ℓ : Nat) (s0 s1 s2 s3 : Option LaneData) :
    laneLen (slotSel ℓ s0 s1 s2 s3) ≤ maxLaneLength s0 s1 s2 s3 := by
  unfold slotSel maxLaneLength
  split_ifs <;> omega

theorem effectiveLane_length (m : Nat) (fb : List Nat) (s : Option LaneData)
    (h : laneLen s ≤ m) : (effectiveLane m fb s).length = m := by
  cases s with
  | none => simp [effectiveLane]
  | some ld => simp [effectiveLane]; simp [laneLen] at h; omega

theorem tileAt_lt (pat : List Nat) (hp : ∀ x ∈ pat, x < 256) (i : Nat) :
    tileAt pat i < 256 := by
  unfold tileAt
  rcases pat with _ | ⟨a, t⟩
  · simp
  · have hlt : i % (a :: t).length < (a :: t).length := Nat.mod_lt _ (by simp)
    rw [List.getD_eq_getElem _ _ hlt]
    exact hp _ (List.getElem_mem hlt)

theorem needsPadError_of_padOk (m : Nat) (s : Option LaneData) (h : slotPadOk s) :
    needsPadError m s = false := by
  cases s with
  | none => rfl
  | some ld => simp [needsPadError, slotPadOk] at *; intro _; exact h

theorem needsPadError_of_full (m : Nat) (s : Option LaneData) (h : laneLen s = m) :
    needsPadError m s = false := by
  cases s with
  | none => rfl
  | some ld => simp [needsPadError, laneLen] at *; intro hlt; omega

theorem transpose_eq_interleave (l0 l1 l2 l3 : Option LaneData) (output : List Nat)
    (hbuf : output.length = maxLaneLength l0 l1 l2 l3 * 4)
    (h0 : needsPadError (maxLaneLength l0 l1 l2 l3) l0 = false)
    (h1 : needsPadError (maxLaneLength l0 l1 l2 l3) l1 = false)
    (h2 : needsPadError (maxLaneLength l0 l1 l2 l3) l2 = false)
    (h3 : needsPadError (maxLaneLength l0 l1 l2 l3) l3 = false) :
    transpose l0 l1 l2 l3 output =
      { ok := true, error := none,
        output :=
          interleave4
            (effectiveLane (maxLaneLength l0 l1 l2 l3) (fallbackPadding l0 l1 l2 l3) l0)
            (effectiveLane (maxLaneLength l0 l1 l2 l3) (fallbackPadding l0 l1 l2 l3) l1)
            (effectiveLane (maxLaneLength l0 l1 l2 l3) (fallbackPadding l0 l1 l2 l3) l2)
            (effectiveLane (maxLaneLength l0 l1 l2 l3) (fallbackPadding l0 l1 l2 l3) l3)
            (maxLaneLength l0 l1 l2 l3) } := by
  simp [transpose, hbuf, h0, h1, h2, h3]

theorem extractLanes_four (buf : List Nat) (L : Nat) :
    extractLanes buf 4 L =
      [(List.range L).map (fun k => extractLaneByte buf 0 k),
       (List.range L).map (fun k => extractLaneByte buf 1 k),
       (List.range L).map (fun k => extractLaneByte buf 2 k),
       (List.range L).map (fun k => extractLaneByte buf 3 k)] := by
  simp [extractLanes, List.range_succ]

/-- Every present slot's data has length `L`. -/
def presLenEq (s : Option LaneData) (L : Nat) : Prop :=
  ∀ ld, s = some ld → ld.data.length = L

theorem needsPadError_of_presLenEq (s : Option LaneData) (L : Nat)
    (h : presLenEq s L) : needsPadError L s = false := by
  cases s with
  | none => rfl
  | some ld =>
      have := h ld rfl
      simp [needsPadError]
      omega

theorem effectiveLane_of_full (m : Nat) (fb : List Nat) (ld : LaneData)
    (h : ld.data.length = m) : effectiveLane m fb (some ld) = ld.data := by
  simp [effectiveLane, h]

theorem effectiveLane_bytes_lt (m : Nat) (fb : List Nat) (dat pat : List Nat)
    (hdat : ∀ x ∈ dat, x < 256) (hpatb : ∀ x ∈ pat, x < 256) :
    ∀ x ∈ effectiveLane m fb (some ⟨dat, pat⟩), x < 256 := by
  intro x hx
  simp only [effectiveLane, List.mem_append, List.mem_map, List.mem_range] at hx
  rcases hx with ⟨i, _, rfl⟩ | hx
  · exact tileAt_lt pat hpatb i
  · exact hdat x hx

theorem maxLaneLength_eq_of_presLenEq (s0 s1 s2 s3 : Option LaneData) (L ℓ : Nat)
    (hl : ℓ < 4) (dat pat : List Nat) (hslot : slotSel ℓ s0 s1 s2 s3 = some ⟨dat, pat⟩)
    (hp0 : presLenEq s0 L) (hp1 : presLenEq s1 L) (hp2 : presLenEq s2 L)
    (hp3 : presLenEq s3 L) :
    maxLaneLength s0 s1 s2 s3 = L := by
  have hub : ∀ s, presLenEq s L → laneLen s ≤ L := by
    intro s hs
    cases s with
    | none => exact Nat.zero_le L
    | some ld => exact le_of_eq (hs ld rfl)
  have h0 := hub s0 hp0
  have h1 := hub s1 hp1
  have h2 := hub s2 hp2
  have h3 := hub s3 hp3
  have hdatL : dat.length = L := by
    interval_cases ℓ <;> simp [slotSel] at hslot
    · exact hp0 _ hslot
    · exact hp1 _ hslot
    · exact hp2 _ hslot
    · exact hp3 _ hslot
  have hlo : L ≤ maxLaneLength s0 s1 s2 s3 := by
    have hle := laneLen_le_max ℓ s0 s1 s2 s3
    rw [hslot] at hle
    simp [laneLen, hdatL] at hle
    exact hle
  unfold maxLaneLength at *
  omega

theorem slotSel_data_length (s0 s1 s2 s3 : Option LaneData) (L ℓ : Nat)
    (hl : ℓ < 4) (dat pat : List Nat)
    (hslot : slotSel ℓ s0 s1 s2 s3 = some ⟨dat, pat⟩)
    (hp0 : presLenEq s0 L) (hp1 : presLenEq s1 L) (hp2 : presLenEq s2 L)
    (hp3 : presLenEq s3 L) : dat.length = L := by
  interval_cases ℓ <;> simp [slotSel] at hslot
  · exact hp0 _ hslot
  · exact hp1 _ hslot
  · exact hp2 _ hslot
  · exact hp3 _ hslot

/-- C2: round-trip — for up to 4 lane buffers of equal length `L` (no
padding needed), de-interleaving the quad transposer's output with the
stub's `extractLanes` (2-bit group at bit positions `2*lane+1..2*lane`,
four consecutive interleaved bytes reassembled MSB-group-first) recovers
each present lane's original byte sequence exactly. -/
theorem quad_transpose_roundtrip (s0 s1 s2 s3 : Option LaneData) (L ℓ : Nat)
    (dat pat : List Nat) (hl : ℓ < 4)
    (hslot : slotSel ℓ s0 s1 s2 s3 = some ⟨dat, pat⟩)
    (hp0 : presLenEq s0 L) (hp1 : presLenEq s1 L) (hp2 : presLenEq s2 L)
    (hp3 : presLenEq s3 L)
    (hbytes : ∀ x ∈ dat, x < 256)
    (buf : List Nat) (hbuf : buf.length = L * 4) :
    (transpose s0 s1 s2 s3 buf).ok = true ∧
    (extractLanes (transpose s0 s1 s2 s3 buf).output 4 L).getD ℓ [] = dat := by
  have hmax := maxLaneLength_eq_of_presLenEq s0 s1 s2 s3 L ℓ hl dat pat hslot hp0 hp1 hp2 hp3
  have hdatL := slotSel_data_length s0 s1 s2 s3 L ℓ hl dat pat hslot hp0 hp1 hp2 hp3
  have ht := transpose_eq_interleave s0 s1 s2 s3 buf (by rw [hmax]; exact hbuf)
    (by rw [hmax]; exact needsPadError_of_presLenEq s0 L hp0)
    (by rw [hmax]; exact needsPadError_of_presLenEq s1 L hp1)
    (by rw [hmax]; exact needsPadError_of_presLenEq s2 L hp2)
    (by rw [hmax]; exact needsPadError_of_presLenEq s3 L hp3)
  rw [ht, hmax]
  refine ⟨rfl, ?_⟩
  rw [extractLanes_four]
  interval_cases ℓ
  · have hs : s0 = some ⟨dat, pat⟩ := by simpa [slotSel] using hslot
    have he : effectiveLane L (fallbackPadding s0 s1 s2 s3) s0 = dat := by
      rw [hs]; exact effectiveLane_of_full L _ _ hdatL
    have hx := extract_lane_of_interleave4
      (effectiveLane L (fallbackPadding s0 s1 s2 s3) s0)
      (effectiveLane L (fallbackPadding s0 s1 s2 s3) s1)
      (effectiveLane L (fallbackPadding s0 s1 s2 s3) s2)
      (effectiveLane L (fallbackPadding s0 s1 s2 s3) s3)
      L 0 (by norm_num) (by simp [he, hdatL]) (by simp [he]; exact hbytes)
    simp only [reduceIte] at hx
    simpa [List.getD, he] using hx
  · have hs : s1 = some ⟨dat, pat⟩ := by simpa [slotSel] using hslot
    have he : effectiveLane L (fallbackPadding s0 s1 s2 s3) s1 = dat := by
      rw [hs]; exact effectiveLane_of_full L _ _ hdatL
    have hx := extract_lane_of_interleave4
      (effectiveLane L (fallbackPadding s0 s1 s2 s3) s0)
      (effectiveLane L (fallbackPadding s0 s1 s2 s3) s1)
      (effectiveLane L (fallbackPadding s0 s1 s2 s3) s2)
      (effectiveLane L (fallbackPadding s0 s1 s2 s3) s3)
      L 1 (by norm_num) (by simp [he, hdatL]) (by simp [he]; exact hbytes)
    simp only [reduceIte] at hx
    simpa [List.getD, he] using hx
  · have hs : s2 = some ⟨dat, pat⟩ := by simpa [slotSel] using hslot
    have he : effectiveLane L (fallbackPadding s0 s1 s2 s3) s2 = dat := by
      rw [hs]; exact effectiveLane_of_full L _ _ hdatL
    have hx := extract_lane_of_interleave4
      (effectiveLane L (fallbackPadding s0 s1 s2 s3) s0)
      (effectiveLane L (fallbackPadding s0 s1 s2 s3) s1)
      (effectiveLane L (fallbackPadding s0 s1 s2 s3) s2)
      (effectiveLane L (fallbackPadding s0 s1 s2 s3) s3)
      L 2 (by norm_num) (by simp [he, hdatL]) (by simp [he]; exact hbytes)
    simp only [reduceIte] at hx
    simpa [List.getD, he] using hx
  · have hs : s3 = some ⟨dat, pat⟩ := by simpa [slotSel] using hslot
    have he : effectiveLane L (fallbackPadding s0 s1 s2 s3) s3 = dat := by
      rw [hs]; exact effectiveLane_of_full L _ _ hdatL
    have hx := extract_lane_of_interleave4
      (effectiveLane L (fallbackPadding s0 s1 s2 s3) s0)
      (effectiveLane L (fallbackPadding s0 s1 s2 s3) s1)
      (effectiveLane L (fallbackPadding s0 s1 s2 s3) s2)
      (effectiveLane L (fallbackPadding s0 s1 s2 s3) s3)
      L 3 (by norm_num) (by simp [he, hdatL]) (by simp [he]; exact hbytes)
    simp only [reduceIte] at hx
    simpa [List.getD, he] using hx

/-- C1: for K=4 quad transposition of four present lanes of equal length,
output byte `j` of each source-byte quadruplet packs, MSB to LSB, the `j`-th
2-bit group (MSB pair first) of lane3, lane2, lane1 and lane0's current
source byte — `out = (lane3_bits <<< 6) ||| (lane2_bits <<< 4) |||
(lane1_bits <<< 2) ||| lane0_bits`; the witness checks the concrete fixture
lane0=0x12, lane1=0x34, lane2=0x56, lane3=0x78 ↦ [0b01010000, 221, 148,
0b00100010]. -/
theorem quad_transpose_packs_two_bit_groups
    (d0 d1 d2 d3 p0 p1 p2 p3 : List Nat) (L : Nat)
    (h0 : d0.length = L) (h1 : d1.length = L) (h2 : d2.length = L) (h3 : d3.length = L)
    (buf : List Nat) (hbuf : buf.length = L * 4) :
    (transpose (some ⟨d0, p0⟩) (some ⟨d1, p1⟩) (some ⟨d2, p2⟩) (some ⟨d3, p3⟩) buf).ok
        = true ∧
    ∀ i, i < L * 4 →
      (transpose (some ⟨d0, p0⟩) (some ⟨d1, p1⟩) (some ⟨d2, p2⟩)
          (some ⟨d3, p3⟩) buf).output.getD i 0 =
        ((crumb (d3.getD (i / 4) 0) (i % 4)) <<< 6) |||
        ((crumb (d2.getD (i / 4) 0) (i % 4)) <<< 4) |||
        ((crumb (d1.getD (i / 4) 0) (i % 4)) <<< 2) |||
        (crumb (d0.getD (i / 4) 0) (i % 4)) := by
  have hmax : maxLaneLength (some ⟨d0, p0⟩) (some ⟨d1, p1⟩) (some ⟨d2, p2⟩)
      (some ⟨d3, p3⟩) = L := by
    simp [maxLaneLength, laneLen, h0, h1, h2, h3]
  have ht := transpose_eq_interleave (some ⟨d0, p0⟩) (some ⟨d1, p1⟩) (some ⟨d2, p2⟩)
    (some ⟨d3, p3⟩) buf (by rw [hmax]; exact hbuf)
    (by rw [hmax]; exact needsPadError_of_full L _ (by simp [laneLen, h0]))
    (by rw [hmax]; exact needsPadError_of_full L _ (by simp [laneLen, h1]))
    (by rw [hmax]; exact needsPadError_of_full L _ (by simp [laneLen, h2]))
    (by rw [hmax]; exact needsPadError_of_full L _ (by simp [laneLen, h3]))
  rw [ht, hmax]
  refine ⟨rfl, ?_⟩
  intro i hi
  rw [effectiveLane_of_full L _ ⟨d0, p0⟩ h0, effectiveLane_of_full L _ ⟨d1, p1⟩ h1,
    effectiveLane_of_full L _ ⟨d2, p2⟩ h2, effectiveLane_of_full L _ ⟨d3, p3⟩ h3]
  rw [interleave4_getD _ _ _ _ _ _ hi,
    quadOutByte_eq_lor _ _ _ _ _ (Nat.mod_lt _ (by norm_num))]
  simp [Nat.zero_or]

/-- C3: whenever the output buffer length differs from `max_lane_length * 4`
the transpose returns failure with a non-null error descriptor and leaves
every byte of the output buffer untouched; with all four slots absent and a
length-0 output buffer it returns success. -/
theorem quad_transpose_size_invariant :
    (∀ l0 l1 l2 l3 : Option LaneData, ∀ output : List Nat,
      output.length ≠ maxLaneLength l0 l1 l2 l3 * 4 →
        transpose l0 l1 l2 l3 output =
          { ok := false, error := some "output size mismatch", output := output }) ∧
    transpose none none none none [] = { ok := true, error := none, output := [] } := by
  constructor
  · intro l0 l1 l2 l3 output h
    simp [transpose, h]
  · rfl

theorem extractLanes_getD (buf : List Nat) (L ℓ : Nat) (h : ℓ < 4) :
    (extractLanes buf 4 L).getD ℓ [] =
      (List.range L).map (fun k => extractLaneByte buf ℓ k) := by
  unfold extractLanes
  rw [List.getD_eq_getElem _ _ (by simpa using h)]
  simp

/-- C4: a present lane with data shorter than `max_length` and a non-empty
padding pattern contributes, as observed through the source-level
de-interleaver, first `max_length - len` bytes equal to
`pattern[i mod pattern.length]` (tiling restarting at the pattern's first
byte at the start of the deficit region) and then its real data bytes in
original order in the last `len` positions. -/
theorem quad_transpose_left_padding (s0 s1 s2 s3 : Option LaneData) (ℓ : Nat)
    (dat pat : List Nat) (hl : ℓ < 4)
    (hslot : slotSel ℓ s0 s1 s2 s3 = some ⟨dat, pat⟩)
    (hq0 : slotPadOk s0) (hq1 : slotPadOk s1) (hq2 : slotPadOk s2) (hq3 : slotPadOk s3)
    (hdat : ∀ x ∈ dat, x < 256) (hpatb : ∀ x ∈ pat, x < 256)
    (buf : List Nat) (hbuf : buf.length = maxLaneLength s0 s1 s2 s3 * 4) :
    (transpose s0 s1 s2 s3 buf).ok = true ∧
    (extractLanes (transpose s0 s1 s2 s3 buf).output 4
        (maxLaneLength s0 s1 s2 s3)).getD ℓ [] =
      (List.range (maxLaneLength s0 s1 s2 s3 - dat.length)).map
        (fun i => pat.getD (i % pat.length) 0) ++ dat := by
  have hle := laneLen_le_max ℓ s0 s1 s2 s3
  rw [hslot] at hle
  simp only [laneLen] at hle
  have ht := transpose_eq_interleave s0 s1 s2 s3 buf hbuf
    (needsPadError_of_padOk _ s0 hq0) (needsPadError_of_padOk _ s1 hq1)
    (needsPadError_of_padOk _ s2 hq2) (needsPadError_of_padOk _ s3 hq3)
  rw [ht]
  refine ⟨rfl, ?_⟩
  rw [extractLanes_getD _ _ _ hl]
  interval_cases ℓ
  · have hs : s0 = some ⟨dat, pat⟩ := by simpa [slotSel] using hslot
    have he : effectiveLane (maxLaneLength s0 s1 s2 s3) (fallbackPadding s0 s1 s2 s3) s0 =
        (List.range (maxLaneLength s0 s1 s2 s3 - dat.length)).map (tileAt pat) ++ dat := by
      rw [hs]; rfl
    have hx := extract_lane_of_interleave4
      (effectiveLane (maxLaneLength s0 s1 s2 s3) (fallbackPadding s0 s1 s2 s3) s0)
      (effectiveLane (maxLaneLength s0 s1 s2 s3) (fallbackPadding s0 s1 s2 s3) s1)
      (effectiveLane (maxLaneLength s0 s1 s2 s3) (fallbackPadding s0 s1 s2 s3) s2)
      (effectiveLane (maxLaneLength s0 s1 s2 s3) (fallbackPadding s0 s1 s2 s3) s3)
      (maxLaneLength s0 s1 s2 s3) 0 (by norm_num)
      (by norm_num
          refine effectiveLane_length _ _ _ ?_
          have hll : laneLen s0 = dat.length := by rw [hs]; rfl
          rw [hll]; exact hle)
      (by norm_num; rw [hs]
          exact effectiveLane_bytes_lt _ _ _ _ hdat hpatb)
    norm_num at hx
    rw [hx, he]
    rfl
  · have hs : s1 = some ⟨dat, pat⟩ := by simpa [slotSel] using hslot
    have he : effectiveLane (maxLaneLength s0 s1 s2 s3) (fallbackPadding s0 s1 s2 s3) s1 =
        (List.range (maxLaneLength s0 s1 s2 s3 - dat.length)).map (tileAt pat) ++ dat := by
      rw [hs]; rfl
    have hx := extract_lane_of_interleave4
      (effectiveLane (maxLaneLength s0 s1 s2 s3) (fallbackPadding s0 s1 s2 s3) s0)
      (effectiveLane (maxLaneLength s0 s1 s2 s3) (fallbackPadding s0 s1 s2 s3) s1)
      (effectiveLane (maxLaneLength s0 s1 s2 s3) (fallbackPadding s0 s1 s2 s3) s2)
      (effectiveLane (maxLaneLength s0 s1 s2 s3) (fallbackPadding s0 s1 s2 s3) s3)
      (maxLaneLength s0 s1 s2 s3) 1 (by norm_num)
      (by norm_num
          refine effectiveLane_length _ _ _ ?_
          have hll : laneLen s1 = dat.length := by rw [hs]; rfl
          rw [hll]; exact hle)
      (by norm_num; rw [hs]
          exact effectiveLane_bytes_lt _ _ _ _ hdat hpatb)
    norm_num at hx
    rw [hx, he]
    rfl
  · have hs : s2 = some ⟨dat, pat⟩ := by simpa [slotSel] using hslot
    have he : effectiveLane (maxLaneLength s0 s1 s2 s3) (fallbackPadding s0 s1 s2 s3) s2 =
        (List.range (maxLaneLength s0 s1 s2 s3 - dat.length)).map (tileAt pat) ++ dat := by
      rw [hs]; rfl
    have hx := extract_lane_of_interleave4
      (effectiveLane (maxLaneLength s0 s1 s2 s3) (fallbackPadding s0 s1 s2 s3) s0)
      (effectiveLane (maxLaneLength s0 s1 s2 s3) (fallbackPadding s0 s1 s2 s3) s1)
      (effectiveLane (maxLaneLength s0 s1 s2 s3) (fallbackPadding s0 s1 s2 s3) s2)
      (effectiveLane (maxLaneLength s0 s1 s2 s3) (fallbackPadding s0 s1 s2 s3) s3)
      (maxLaneLength s0 s1 s2 s3) 2 (by norm_num)
      (by norm_num
          refine effectiveLane_length _ _ _ ?_
          have hll : laneLen s2 = dat.length := by rw [hs]; rfl
          rw [hll]; exact hle)
      (by norm_num; rw [hs]
          exact effectiveLane_bytes_lt _ _ _ _ hdat hpatb)
    norm_num at hx
    rw [hx, he]
    rfl
  · have hs : s3 = some ⟨dat, pat⟩ := by simpa [slotSel] using hslot
    have he : effectiveLane (maxLaneLength s0 s1 s2 s3) (fallbackPadding s0 s1 s2 s3) s3 =
        (List.range (maxLaneLength s0 s1 s2 s3 - dat.length)).map (tileAt pat) ++ dat := by
      rw [hs]; rfl
    have hx := extract_lane_of_interleave4
      (effectiveLane (maxLaneLength s0 s1 s2 s3) (fallbackPadding s0 s1 s2 s3) s0)
      (effectiveLane (maxLaneLength s0 s1 s2 s3) (fallbackPadding s0 s1 s2 s3) s1)
      (effectiveLane (maxLaneLength s0 s1 s2 s3) (fallbackPadding s0 s1 s2 s3) s2)
      (effectiveLane (maxLaneLength s0 s1 s2 s3) (fallbackPadding s0 s1 s2 s3) s3)
      (maxLaneLength s0 s1 s2 s3) 3 (by norm_num)
      (by norm_num
          refine effectiveLane_length _ _ _ ?_
          have hll : laneLen s3 = dat.length := by rw [hs]; rfl
          rw [hll]; exact hle)
      (by norm_num; rw [hs]
          exact effectiveLane_bytes_lt _ _ _ _ hdat hpatb)
    norm_num at hx
    rw [hx, he]
    rfl


-- ============================================================
-- Hardware lane transmitters (embedded from the source)
-- ============================================================

/-- `SpiHw4::Config` (`platforms/shared/spi_hw_4.h`): `bus_num` is a
`uint8_t`, pins are `int8_t` (−1 = unused). -/
structure SpiConfig where
  bus_num : Nat
  clock_speed_hz : Nat
  clock_pin : Int
  data0_pin : Int
  data1_pin : Int
  data2_pin : Int
  data3_pin : Int
  max_transfer_sz : Nat
deriving Repr, DecidableEq

/-- C++ conversion of a small signed value to `uint8_t`
(e.g. `int8_t(-1)` becomes 255). -/
def toU8 (p : Int) : Int := p % 256

/-- Observable actions of a transmit call, in chronological order: waiting
for the previous transaction to drain, and starting the new hardware
transfer. -/
inductive SpiAction where
  | wait : SpiAction
  | start : SpiAction
deriving Repr, DecidableEq

/-- `UINT32_MAX`, the infinite-wait sentinel of `waitComplete`. -/
def U32MAX : Nat := 4294967295

/-- Abstract hardware environment for the RP2040 driver: whether a PIO state
machine plus program slot can be claimed, whether a DMA channel is free,
whether `malloc` succeeds, how many poll iterations the DMA channel stays
busy, and its instantaneous busy flag. -/
structure RpEnv where
  pioFound : Bool
  dmaFree : Bool
  mallocOk : Bool
  dmaBusySteps : Nat
  dmaBusyNow : Bool
deriving Repr, DecidableEq

/-- State of `SPIQuadRP2040` (`platforms/arm/rp/rpcommon/spi_hw_4_rp.cpp`).
Pin members are `uint8_t` in the source; they hold `toU8` images of the
config's `int8_t` pins.  The PIO/DMA handles are abstracted to allocation
flags. -/
structure RpState where
  mBusId : Int
  mInitialized : Bool
  mTransactionActive : Bool
  mClockPin : Int
  mData0Pin : Int
  mData1Pin : Int
  mData2Pin : Int
  mData3Pin : Int
  smClaimed : Bool
  programAdded : Bool
  dmaClaimed : Bool
  mDMABufferSize : Nat
deriving Repr, DecidableEq

/-- `SPIQuadRP2040::begin` (lines 214-354).  Note that the source stores the
pin configuration into the `uint8_t` members *before* claiming PIO/DMA
resources and before the consecutive-pins check, that the members being
unsigned makes the `>= 0` guards on them always true, and that the failure
path of the consecutive-pins check unclaims the DMA channel and state
machine but never removes the added PIO program. -/
def rpBegin (s : RpState) (cfg : SpiConfig) (env : RpEnv) : Bool × RpState :=
  if s.mInitialized then (true, s)
  else if s.mBusId ≠ -1 ∧ (cfg.bus_num : Int) ≠ toU8 s.mBusId then (false, s)
  else if cfg.clock_pin < 0 ∨ cfg.data0_pin < 0 then (false, s)
  else
    let s1 := { s with mClockPin := toU8 cfg.clock_pin, mData0Pin := toU8 cfg.data0_pin,
                       mData1Pin := toU8 cfg.data1_pin, mData2Pin := toU8 cfg.data2_pin,
                       mData3Pin := toU8 cfg.data3_pin }
    if ¬ env.pioFound then (false, s1)
    else
      let s2 := { s1 with smClaimed := true, programAdded := true }
      if ¬ env.dmaFree then (false, { s2 with smClaimed := false })
      else
        let s3 := { s2 with dmaClaimed := true }
        if 0 ≤ s3.mData1Pin ∧ 0 ≤ s3.mData2Pin ∧ 0 ≤ s3.mData3Pin then
          if ¬ (s3.mData1Pin = s3.mData0Pin + 1 ∧ s3.mData2Pin = s3.mData0Pin + 2 ∧
              s3.mData3Pin = s3.mData0Pin + 3) then
            (false, { s3 with dmaClaimed := false, smClaimed := false })
          else (true, { s3 with mInitialized := true, mTransactionActive := false })
        else (true, { s3 with mInitialized := true, mTransactionActive := false })

/-- `SPIQuadRP2040::allocateDMABuffer` (lines 360-381): grow-only
reallocation; on `malloc` failure the old buffer has been freed. -/
def rpAllocate (s : RpState) (required : Nat) (env : RpEnv) : Bool × RpState :=
  if required ≤ s.mDMABufferSize then (true, s)
  else if ¬ env.mallocOk then (false, { s with mDMABufferSize := 0 })
  else (true, { s with mDMABufferSize := required })

/-- `SPIQuadRP2040::waitComplete` (lines 458-478).  Both the infinite-wait
branch and the finite-timeout branch block until the DMA channel is idle —
the finite branch busy-polls with no timestamp check — so the call always
returns true; the third component counts the poll iterations that elapsed. -/
def rpWaitComplete (s : RpState) (timeout_ms : Nat) (env : RpEnv) :
    Bool × RpState × Nat :=
  if ¬ s.mTransactionActive then (true, s, 0)
  else if timeout_ms = U32MAX then
    (true, { s with mTransactionActive := false }, env.dmaBusySteps)
  else
    (true, { s with mTransactionActive := false }, env.dmaBusySteps)

/-- `SPIQuadRP2040::transmit` (lines 383-456).  The DMA word packing of
lines 419-448 only fills the DMA buffer contents, which no claim refers to;
the state machine records the buffer growth, the transaction flag and the
chronological actions. -/
def rpTransmit (s : RpState) (buffer : List Nat) (env : RpEnv) :
    Bool × RpState × List SpiAction :=
  if ¬ s.mInitialized then (false, s, [])
  else
    let s1 := if s.mTransactionActive then (rpWaitComplete s U32MAX env).2.1 else s
    let tr1 := if s.mTransactionActive then [SpiAction.wait] else []
    if buffer = [] then (true, s1, tr1)
    else
      let wordCount := (buffer.length + 3) / 4
      let alloc := rpAllocate s1 (wordCount * 4) env
      if ¬ alloc.1 then (false, alloc.2, tr1)
      else (true, { alloc.2 with mTransactionActive := true }, tr1 ++ [SpiAction.start])

/-- `SPIQuadRP2040::isBusy` (lines 480-485). -/
def rpIsBusy (s : RpState) (env : RpEnv) : Bool :=
  if ¬ s.mInitialized then false
  else s.mTransactionActive || env.dmaBusyNow

/-- Hardware environment for the SAMD51 QSPI driver: whether the peripheral
raises its ERROR (overrun) flag during the polled transfer. -/
structure SamdEnv where
  errorFlag : Bool
deriving Repr, DecidableEq

/-- State of `SPIQuadSAMD51` (`platforms/arm/d51/spi_hw_4_samd51.cpp`). -/
structure SamdState where
  mBusId : Int
  mInitialized : Bool
  mTransactionActive : Bool
  mActiveLanes : Nat
  mClockPin : Int
  mData0Pin : Int
  mData1Pin : Int
  mData2Pin : Int
  mData3Pin : Int
deriving Repr, DecidableEq

/-- `SPIQuadSAMD51::begin` (lines 176-292): bus and pin validation, then pin
storage, lane counting and QSPI register configuration (register pokes are
hardware effects outside the state). -/
def samdBegin (s : SamdState) (cfg : SpiConfig) : Bool × SamdState :=
  if s.mInitialized then (true, s)
  else if s.mBusId ≠ -1 ∧ (cfg.bus_num : Int) ≠ toU8 s.mBusId then (false, s)
  else if cfg.clock_pin < 0 ∨ cfg.data0_pin < 0 then (false, s)
  else
    (true, { s with
      mClockPin := toU8 cfg.clock_pin, mData0Pin := toU8 cfg.data0_pin,
      mData1Pin := toU8 cfg.data1_pin, mData2Pin := toU8 cfg.data2_pin,
      mData3Pin := toU8 cfg.data3_pin,
      mActiveLanes := 1 + (if 0 ≤ cfg.data1_pin then 1 else 0) +
        (if 0 ≤ cfg.data2_pin then 1 else 0) + (if 0 ≤ cfg.data3_pin then 1 else 0),
      mInitialized := true, mTransactionActive := false })

/-- `SPIQuadSAMD51::waitComplete` (lines 408-426): the polled transmit is
synchronous, so nothing is ever pending when it runs. -/
def samdWaitComplete (s : SamdState) (_timeout_ms : Nat) : Bool × SamdState :=
  if ¬ s.mTransactionActive then (true, s)
  else (true, { s with mTransactionActive := false })

/-- `SPIQuadSAMD51::transmit` (lines 298-406): drains a pending transaction,
treats an empty buffer as a no-op success, then performs the polled
transfer; an ERROR flag aborts with false and clears the transaction flag,
otherwise the synchronous transfer ends with the flag cleared. -/
def samdTransmit (s : SamdState) (buffer : List Nat) (env : SamdEnv) :
    Bool × SamdState × List SpiAction :=
  if ¬ s.mInitialized then (false, s, [])
  else
    let s1 := if s.mTransactionActive then (samdWaitComplete s U32MAX).2 else s
    let tr1 := if s.mTransactionActive then [SpiAction.wait] else []
    if buffer = [] then (true, s1, tr1)
    else if env.errorFlag then
      (false, { s1 with mTransactionActive := false }, tr1 ++ [SpiAction.start])
    else (true, { s1 with mTransactionActive := false }, tr1 ++ [SpiAction.start])

/-- `SPIQuadSAMD51::isBusy` (lines 428-433). -/
def samdIsBusy (s : SamdState) : Bool :=
  if ¬ s.mInitialized then false
  else s.mTransactionActive


/-- State of `SpiHw4Stub` (`platforms/stub/spi_quad_stub.cpp`). -/
structure Stub4State where
  mBusId : Int
  mInitialized : Bool
  mBusy : Bool
  mClockSpeed : Nat
  mTransmitCount : Nat
  mLastBuffer : List Nat
  mDMABuffer : List Nat
  mMaxBytesPerLane : Nat
  mCurrentTotalSize : Nat
  mBufferAcquired : Bool
deriving Repr, DecidableEq

/-- `SpiHw4Stub::SpiHw4Stub` (lines 18-28). -/
def stub4Initial (bus_id : Int) : Stub4State :=
  { mBusId := bus_id, mInitialized := false, mBusy := false,
    mClockSpeed := 20000000, mTransmitCount := 0, mLastBuffer := [],
    mDMABuffer := [], mMaxBytesPerLane := 0, mCurrentTotalSize := 0,
    mBufferAcquired := false }

/-- `SpiHw4Stub::begin` (lines 30-43). -/
def stub4Begin (s : Stub4State) (cfg : SpiConfig) : Bool × Stub4State :=
  if s.mInitialized then (true, s)
  else if s.mBusId ≠ -1 ∧ (cfg.bus_num : Int) ≠ toU8 s.mBusId then (false, s)
  else (true, { s with mClockSpeed := cfg.clock_speed_hz, mInitialized := true })

/-- `SpiHw4Stub::end` (lines 45-55). -/
def stub4End (s : Stub4State) : Stub4State :=
  { s with mInitialized := false, mBusy := false, mLastBuffer := [],
           mDMABuffer := [], mMaxBytesPerLane := 0, mCurrentTotalSize := 0,
           mBufferAcquired := false }

/-- `SpiHw4Stub::waitComplete` (lines 109-118): succeeds instantly and
auto-releases the DMA buffer. -/
def stub4WaitComplete (s : Stub4State) (_timeout_ms : Nat) : Bool × Stub4State :=
  let s1 := { s with mBusy := false, mBufferAcquired := false,
                     mCurrentTotalSize := 0 }
  (true, s1)

/-- `SpiHw4Stub::acquireDMABuffer` (lines 57-83): rejects when not
initialized, auto-waits when a previous transmission is still active, then
grows the buffer only when more capacity is needed. -/
def stub4Acquire (s : Stub4State) (bytes_per_lane : Nat) :
    Bool × Stub4State × List SpiAction :=
  if ¬ s.mInitialized then (false, s, [])
  else
    let s1 := if s.mBusy then (stub4WaitComplete s U32MAX).2 else s
    let tr1 := if s.mBusy then [SpiAction.wait] else []
    let s2 := if s1.mMaxBytesPerLane < bytes_per_lane then
        { s1 with mDMABuffer := List.replicate (bytes_per_lane * 4) 0,
                  mMaxBytesPerLane := bytes_per_lane }
      else s1
    let s3 := { s2 with mBufferAcquired := true,
                        mCurrentTotalSize := bytes_per_lane * 4 }
    (true, s3, tr1)

/-- `SpiHw4Stub::transmit` (lines 85-107). -/
def stub4Transmit (s : Stub4State) : Bool × Stub4State :=
  if ¬ s.mInitialized ∨ ¬ s.mBufferAcquired then (false, s)
  else if s.mCurrentTotalSize = 0 then (true, s)
  else
    let s1 := { s with mLastBuffer := s.mDMABuffer.take s.mCurrentTotalSize,
                       mTransmitCount := s.mTransmitCount + 1, mBusy := true }
    (true, s1)

/-- `SpiHw4Stub::isBusy` (lines 120-122). -/
def stub4IsBusy (s : Stub4State) : Bool := s.mBusy

/-- `SpiHw4Stub::reset` (lines 152-156). -/
def stub4Reset (s : Stub4State) : Stub4State :=
  { s with mLastBuffer := [], mTransmitCount := 0, mBusy := false }

/-- The stub states reachable from construction through the public API. -/
inductive Stub4Reachable : Stub4State → Prop where
  | mkInit (bus_id : Int) : Stub4Reachable (stub4Initial bus_id)
  | stepBegin (s : Stub4State) (cfg : SpiConfig) :
      Stub4Reachable s → Stub4Reachable (stub4Begin s cfg).2
  | stepEnd (s : Stub4State) : Stub4Reachable s → Stub4Reachable (stub4End s)
  | stepAcquire (s : Stub4State) (bpl : Nat) :
      Stub4Reachable s → Stub4Reachable (stub4Acquire s bpl).2.1
  | stepTransmit (s : Stub4State) :
      Stub4Reachable s → Stub4Reachable (stub4Transmit s).2
  | stepWait (s : Stub4State) (t : Nat) :
      Stub4Reachable s → Stub4Reachable (stub4WaitComplete s t).2
  | stepReset (s : Stub4State) : Stub4Reachable s → Stub4Reachable (stub4Reset s)

/-- State of `SpiHw2Stub` (`platforms/stub/spi_dual_stub.cpp`). -/
structure Stub2State where
  mBusId : Int
  mInitialized : Bool
  mBusy : Bool
  mClockSpeed : Nat
  mTransmitCount : Nat
  mLastBuffer : List Nat
deriving Repr, DecidableEq

/-- `SpiHw2Stub::begin` (lines 19-32). -/
def stub2Begin (s : Stub2State) (cfg : SpiConfig) : Bool × Stub2State :=
  if s.mInitialized then (true, s)
  else if s.mBusId ≠ -1 ∧ (cfg.bus_num : Int) ≠ toU8 s.mBusId then (false, s)
  else (true, { s with mClockSpeed := cfg.clock_speed_hz, mInitialized := true })

/-- `SpiHw2Stub::transmitAsync` (lines 40-60): rejects when not initialized,
empty buffer is a no-op success, otherwise captures the data and becomes
busy. -/
def stub2TransmitAsync (s : Stub2State) (buffer : List Nat) : Bool × Stub2State :=
  if ¬ s.mInitialized then (false, s)
  else if buffer = [] then (true, s)
  else
    let s1 := { s with mLastBuffer := buffer,
                       mTransmitCount := s.mTransmitCount + 1, mBusy := true }
    (true, s1)

/-- State of `SpiHw8RP2040` (`platforms/arm/rp/rpcommon/spi_hw_8_rp.cpp`);
`dmaWords` is the packed 32-bit word stream the started DMA transfer will
send. -/
structure Hw8State where
  mInitialized : Bool
  mTransactionActive : Bool
  mDMABufferSize : Nat
  dmaWords : List Nat
deriving Repr, DecidableEq

/-- The octal word packing of `SpiHw8RP2040::transmitAsync` (lines 404-422):
each 32-bit word holds four consecutive buffer bytes MSB-first, missing tail
bytes read as 0. -/
def hw8PackWords (buffer : List Nat) : List Nat :=
  (List.range ((buffer.length + 3) / 4)).map fun w =>
    ((buffer.getD (4 * w) 0) <<< 24) ||| ((buffer.getD (4 * w + 1) 0) <<< 16) |||
    ((buffer.getD (4 * w + 2) 0) <<< 8) ||| (buffer.getD (4 * w + 3) 0)

/-- `SpiHw8RP2040::waitComplete` (lines 432-452): blocks until the DMA
channel is idle for finite and infinite timeouts alike, then reports
success. -/
def hw8WaitComplete (s : Hw8State) (_timeout_ms : Nat) : Bool × Hw8State :=
  if ¬ s.mTransactionActive then (true, s)
  else (true, { s with mTransactionActive := false })

/-- `SpiHw8RP2040::allocateDMABuffer` (lines 350-371). -/
def hw8Allocate (s : Hw8State) (required : Nat) (env : RpEnv) : Bool × Hw8State :=
  if required ≤ s.mDMABufferSize then (true, s)
  else if ¬ env.mallocOk then (false, { s with mDMABufferSize := 0 })
  else (true, { s with mDMABufferSize := required })

/-- `SpiHw8RP2040::transmitAsync` (lines 373-430). -/
def hw8TransmitAsync (s : Hw8State) (buffer : List Nat) (env : RpEnv) :
    Bool × Hw8State × List SpiAction :=
  if ¬ s.mInitialized then (false, s, [])
  else
    let s1 := if s.mTransactionActive then (hw8WaitComplete s U32MAX).2 else s
    let tr1 := if s.mTransactionActive then [SpiAction.wait] else []
    if buffer = [] then (true, s1, tr1)
    else
      let wordCount := (buffer.length + 3) / 4
      let alloc := hw8Allocate s1 (wordCount * 4) env
      if ¬ alloc.1 then (false, alloc.2, tr1)
      else
        let s2 := { alloc.2 with mTransactionActive := true,
                                 dmaWords := hw8PackWords buffer }
        (true, s2, tr1 ++ [SpiAction.start])


/-- In every API-reachable stub state, losing initialization also means the
busy flag is clear. -/
theorem stub4_reachable_not_busy (s : Stub4State) (h : Stub4Reachable s) :
    s.mInitialized = false → s.mBusy = false := by
  induction h with
  | mkInit bus_id => intro _; rfl
  | stepBegin s cfg hr ih =>
      simp only [stub4Begin]
      split_ifs <;> intro hcon <;> simp_all
  | stepEnd s hr ih => intro _; rfl
  | stepAcquire s bpl hr ih =>
      simp only [stub4Acquire, stub4WaitComplete]
      split_ifs <;> intro hcon <;> simp_all
  | stepTransmit s hr ih =>
      simp only [stub4Transmit]
      split_ifs <;> intro hcon <;> simp_all
  | stepWait s t hr ih => intro _; rfl
  | stepReset s hr ih => intro _; rfl


-- ============================================================
-- Concrete fixture states
-- ============================================================

/-- A fully valid quad configuration (consecutive data pins 5..8). -/
def cfgGood : SpiConfig :=
  { bus_num := 0, clock_speed_hz := 20000000, clock_pin := 2, data0_pin := 5,
    data1_pin := 6, data2_pin := 7, data3_pin := 8, max_transfer_sz := 65536 }

/-- Like `cfgGood` but with non-consecutive data pins (`data1 = data0 + 2`). -/
def cfgNonConsec : SpiConfig := { cfgGood with data1_pin := 7 }

/-- Like `cfgGood` but targeting the wrong bus. -/
def cfgBadBus : SpiConfig := { cfgGood with bus_num := 1 }

/-- Like `cfgGood` but with no clock pin. -/
def cfgNoClock : SpiConfig := { cfgGood with clock_pin := -1 }

/-- Environment with all hardware resources free and the DMA idle. -/
def envFree : RpEnv :=
  { pioFound := true, dmaFree := true, mallocOk := true, dmaBusySteps := 0,
    dmaBusyNow := false }

/-- Environment whose DMA channel stays busy for 5 poll iterations. -/
def envSlow : RpEnv := { envFree with dmaBusySteps := 5 }

/-- An RP2040 driver as constructed (`SPIQuadRP2040::SPIQuadRP2040`, bus 0). -/
def rpFresh : RpState :=
  { mBusId := 0, mInitialized := false, mTransactionActive := false,
    mClockPin := 0, mData0Pin := 0, mData1Pin := 0, mData2Pin := 0,
    mData3Pin := 0, smClaimed := false, programAdded := false,
    dmaClaimed := false, mDMABufferSize := 0 }

/-- An initialized, idle RP2040 driver. -/
def rpReady : RpState :=
  { rpFresh with mInitialized := true, mClockPin := 2, mData0Pin := 5,
                 mData1Pin := 6, mData2Pin := 7, mData3Pin := 8,
                 smClaimed := true, programAdded := true, dmaClaimed := true }

/-- An RP2040 driver with a transaction in flight. -/
def rpActive : RpState := { rpReady with mTransactionActive := true }

/-- An initialized, idle SAMD51 driver. -/
def samdReady : SamdState :=
  { mBusId := 0, mInitialized := true, mTransactionActive := false,
    mActiveLanes := 4, mClockPin := 1, mData0Pin := 2, mData1Pin := 3,
    mData2Pin := 4, mData3Pin := 5 }

/-- A SAMD51 driver with a transaction in flight. -/
def samdActive : SamdState := { samdReady with mTransactionActive := true }

/-- An initialized quad stub (bus 2, as in the stub factory). -/
def stub4Ready : Stub4State := { stub4Initial 2 with mInitialized := true }

/-- A busy quad stub. -/
def stub4Busy : Stub4State := { stub4Ready with mBusy := true }

/-- An initialized dual stub. -/
def stub2Ready : Stub2State :=
  { mBusId := 0, mInitialized := true, mBusy := false, mClockSpeed := 0,
    mTransmitCount := 0, mLastBuffer := [] }

/-- A dual stub before `begin`. -/
def stub2Fresh : Stub2State := { stub2Ready with mInitialized := false }

/-- An initialized, idle octal RP2040 driver. -/
def hw8Ready : Hw8State :=
  { mInitialized := true, mTransactionActive := false, mDMABufferSize := 0,
    dmaWords := [] }

/-- An octal RP2040 driver before `begin`. -/
def hw8Fresh : Hw8State := { hw8Ready with mInitialized := false }

/-- C5: at most one transaction is active at a time — when
`SPIQuadRP2040::transmit`, `SPIQuadSAMD51::transmit` or
`SpiHw4Stub::acquireDMABuffer` runs while a previous transaction is still
active, the chronological action trace starts with the wait for the prior
transaction, so the new hardware transfer can only start after it. -/
theorem single_active_transaction
    (s : RpState) (buf : List Nat) (env : RpEnv)
    (t : SamdState) (buf2 : List Nat) (env2 : SamdEnv)
    (u : Stub4State) (bpl : Nat)
    (hsi : s.mInitialized = true) (hs : s.mTransactionActive = true)
    (hti : t.mInitialized = true) (ht : t.mTransactionActive = true)
    (hu1 : u.mInitialized = true) (hu2 : u.mBusy = true) :
    (∃ rest, (rpTransmit s buf env).2.2 = SpiAction.wait :: rest) ∧
    (∃ rest, (samdTransmit t buf2 env2).2.2 = SpiAction.wait :: rest) ∧
    (stub4Acquire u bpl).2.2 = [SpiAction.wait] := by
  refine ⟨?_, ?_, ?_⟩
  · simp only [rpTransmit, hsi, hs]
    norm_num
    split_ifs <;> exact ⟨_, rfl⟩
  · simp only [samdTransmit, hti, ht]
    norm_num
    split_ifs <;> exact ⟨_, rfl⟩
  · simp [stub4Acquire, hu1, hu2]


/-- C6: `transmitAsync` returns false with the state unchanged when the
transmitter is not initialized, and on an initialized transmitter an empty
buffer is a no-op success: the dual stub's state is unchanged, and the octal
RP2040 driver reports success with no transaction active, no change to the
packed DMA words and no start action. -/
theorem transmitAsync_reject_and_empty_noop :
    (∀ (s : Stub2State) (buf : List Nat), s.mInitialized = false →
      stub2TransmitAsync s buf = (false, s)) ∧
    (∀ s : Stub2State, s.mInitialized = true →
      stub2TransmitAsync s [] = (true, s)) ∧
    (∀ (h : Hw8State) (buf : List Nat) (env : RpEnv), h.mInitialized = false →
      hw8TransmitAsync h buf env = (false, h, [])) ∧
    (∀ (h : Hw8State) (env : RpEnv), h.mInitialized = true →
      (hw8TransmitAsync h [] env).1 = true ∧
      (hw8TransmitAsync h [] env).2.1.mTransactionActive = false ∧
      (hw8TransmitAsync h [] env).2.1.dmaWords = h.dmaWords ∧
      SpiAction.start ∉ (hw8TransmitAsync h [] env).2.2) := by
  refine ⟨?_, ?_, ?_, ?_⟩
  · intro s buf h
    simp [stub2TransmitAsync, h]
  · intro s h
    simp [stub2TransmitAsync, h]
  · intro h buf env hh
    simp [hw8TransmitAsync, hh]
  · intro h env hh
    by_cases ha : h.mTransactionActive <;>
      simp [hw8TransmitAsync, hw8WaitComplete, hh, ha]

/-- C7 (amended): `waitComplete` returns true immediately when no
transaction is pending; with a pending transaction the cited implementations
block until completion regardless of the timeout value — the RP2040 driver
busy-polls through all `dmaBusySteps` iterations even for a finite timeout —
and return true with the transaction no longer in flight; the quad stub
always completes instantly and releases its DMA buffer. -/
theorem waitComplete_blocks_until_done
    (s : RpState) (t : Nat) (env : RpEnv) (u : Stub4State) (t2 : Nat) :
    (s.mTransactionActive = false → rpWaitComplete s t env = (true, s, 0)) ∧
    (s.mTransactionActive = true →
      rpWaitComplete s t env =
        (true, { s with mTransactionActive := false }, env.dmaBusySteps)) ∧
    stub4WaitComplete u t2 =
      (true, { u with mBusy := false, mBufferAcquired := false, mCurrentTotalSize := 0 }) := by
  refine ⟨?_, ?_, rfl⟩
  · intro h
    simp [rpWaitComplete, h]
  · intro h
    by_cases hT : t = U32MAX <;> simp [rpWaitComplete, h, hT]

/-- C7 counterexample: with a transaction in flight whose DMA stays busy
for 5 poll iterations and a finite timeout of 1, the claim says
`waitComplete` returns false with the transaction still in flight; the
embedded `SPIQuadRP2040::waitComplete` instead returns true and clears the
transaction flag, because the finite-timeout branch busy-polls to completion
without any timestamp check. -/
theorem waitComplete_timeout_counterexample :
    (1 : Nat) ≠ U32MAX ∧ 1 < 5 ∧ envSlow.dmaBusySteps = 5 ∧
    rpActive.mTransactionActive = true ∧
    (rpWaitComplete rpActive 1 envSlow).1 = true ∧
    (rpWaitComplete rpActive 1 envSlow).2.1.mTransactionActive = false := by
  decide

/-- C8: `begin()` is idempotent — on an already-initialized RP2040, SAMD51
or stub transmitter a second call returns true immediately and the state,
including every allocated-resource flag, is exactly what it was before the
call. -/
theorem begin_idempotent
    (s : RpState) (cfg : SpiConfig) (env : RpEnv)
    (t : SamdState) (cfg2 : SpiConfig) (u : Stub4State) (cfg3 : SpiConfig)
    (hs : s.mInitialized = true) (ht : t.mInitialized = true)
    (hu : u.mInitialized = true) :
    rpBegin s cfg env = (true, s) ∧ samdBegin t cfg2 = (true, t) ∧
    stub4Begin u cfg3 = (true, u) := by
  refine ⟨?_, ?_, ?_⟩
  · simp [rpBegin, hs]
  · simp [samdBegin, ht]
  · simp [stub4Begin, hu]

/-- C10: on a transmitter that is not initialized, `isBusy()` returns
false — directly for `SPIQuadRP2040::isBusy` and `SPIQuadSAMD51::isBusy`
(whatever the transaction flag holds), and for the quad stub in every state
reachable through its API, where `end()` clears the busy flag. -/
theorem isBusy_false_when_uninitialized :
    (∀ (s : RpState) (env : RpEnv), s.mInitialized = false → rpIsBusy s env = false) ∧
    (∀ t : SamdState, t.mInitialized = false → samdIsBusy t = false) ∧
    (∀ u : Stub4State, Stub4Reachable u → u.mInitialized = false →
      stub4IsBusy u = false) := by
  refine ⟨?_, ?_, ?_⟩
  · intro s env h
    simp [rpIsBusy, h]
  · intro t h
    simp [samdIsBusy, h]
  · intro u hr h
    simpa [stub4IsBusy] using stub4_reachable_not_busy u hr h


theorem toU8_nonneg (p : Int) : 0 ≤ toU8 p :=
  Int.emod_nonneg p (by norm_num)

/-- C9 (amended): a validation-failing `begin()` returns false and leaves
the transmitter uninitialized; on a bus-id mismatch or a missing clock/data0
pin the state is fully untouched (also in the dual stub), but on the
non-consecutive-data-pins failure the RP2040 driver has already stored the
new pin configuration into its members and, while it releases the DMA
channel and the PIO state machine, the added PIO program slot stays
allocated. -/
theorem begin_validation_failure_effects :
    (∀ (s : RpState) (cfg : SpiConfig) (env : RpEnv),
      s.mInitialized = false → s.mBusId ≠ -1 → (cfg.bus_num : Int) ≠ toU8 s.mBusId →
        rpBegin s cfg env = (false, s)) ∧
    (∀ (s : RpState) (cfg : SpiConfig) (env : RpEnv),
      s.mInitialized = false → ¬ (s.mBusId ≠ -1 ∧ (cfg.bus_num : Int) ≠ toU8 s.mBusId) →
      (cfg.clock_pin < 0 ∨ cfg.data0_pin < 0) →
        rpBegin s cfg env = (false, s)) ∧
    (∀ (s : RpState) (cfg : SpiConfig) (env : RpEnv),
      s.mInitialized = false → ¬ (s.mBusId ≠ -1 ∧ (cfg.bus_num : Int) ≠ toU8 s.mBusId) →
      ¬ (cfg.clock_pin < 0 ∨ cfg.data0_pin < 0) →
      env.pioFound = true → env.dmaFree = true →
      ¬ (toU8 cfg.data1_pin = toU8 cfg.data0_pin + 1 ∧
        toU8 cfg.data2_pin = toU8 cfg.data0_pin + 2 ∧
        toU8 cfg.data3_pin = toU8 cfg.data0_pin + 3) →
        rpBegin s cfg env =
          (false, { s with mClockPin := toU8 cfg.clock_pin,
                           mData0Pin := toU8 cfg.data0_pin,
                           mData1Pin := toU8 cfg.data1_pin,
                           mData2Pin := toU8 cfg.data2_pin,
                           mData3Pin := toU8 cfg.data3_pin,
                           smClaimed := false, programAdded := true,
                           dmaClaimed := false })) ∧
    (∀ (s : Stub2State) (cfg : SpiConfig),
      s.mInitialized = false → s.mBusId ≠ -1 → (cfg.bus_num : Int) ≠ toU8 s.mBusId →
        stub2Begin s cfg = (false, s)) := by
  refine ⟨?_, ?_, ?_, ?_⟩
  · intro s cfg env h1 h2 h3
    simp [rpBegin, h1, h2, h3]
  · intro s cfg env h1 h2 h3
    simp only [rpBegin, h1]
    rw [if_neg (by simp), if_neg h2, if_pos h3]
  · intro s cfg env h1 h2 h3 h4 h5 h6
    simp only [rpBegin, h1]
    rw [if_neg (by simp), if_neg h2, if_neg h3]
    simp only [h4, h5]
    norm_num
    rw [if_pos ⟨toU8_nonneg _, toU8_nonneg _, toU8_nonneg _⟩]
    split_ifs with hc
    · rfl
    · push_neg at hc
      exact absurd hc h6
  · intro s cfg h1 h2 h3
    simp [stub2Begin, h1, h2, h3]

/-- C9 counterexample: beginning a fresh RP2040 driver with valid bus and
clock/data0 pins but non-consecutive data pins returns false, yet the stored
pin fields change (data0 pin 0 ↦ 5) and the PIO program slot remains
allocated — contradicting the claim that no stored configuration field
changes and no hardware resource remains allocated. -/
theorem begin_nonconsecutive_counterexample :
    (rpBegin rpFresh cfgNonConsec envFree).1 = false ∧
    (rpBegin rpFresh cfgNonConsec envFree).2.mInitialized = false ∧
    rpFresh.mData0Pin = 0 ∧
    (rpBegin rpFresh cfgNonConsec envFree).2.mData0Pin = 5 ∧
    rpFresh.programAdded = false ∧
    (rpBegin rpFresh cfgNonConsec envFree).2.programAdded = true ∧
    (rpBegin rpFresh cfgNonConsec envFree).2 ≠ rpFresh := by
  decide


-- ============================================================
-- Witnesses: each applies its theorem at a concrete input
-- ============================================================

theorem quad_transpose_packs_two_bit_groups_witness :
    ((transpose (some ⟨[0x12], [0]⟩) (some ⟨[0x34], [0]⟩) (some ⟨[0x56], [0]⟩)
        (some ⟨[0x78], [0]⟩) [0, 0, 0, 0]).ok = true ∧
      ∀ i, i < 1 * 4 →
        (transpose (some ⟨[0x12], [0]⟩) (some ⟨[0x34], [0]⟩) (some ⟨[0x56], [0]⟩)
            (some ⟨[0x78], [0]⟩) [0, 0, 0, 0]).output.getD i 0 =
          ((crumb ([0x78].getD (i / 4) 0) (i % 4)) <<< 6) |||
          ((crumb ([0x56].getD (i / 4) 0) (i % 4)) <<< 4) |||
          ((crumb ([0x34].getD (i / 4) 0) (i % 4)) <<< 2) |||
          (crumb ([0x12].getD (i / 4) 0) (i % 4))) ∧
    (transpose (some ⟨[0x12], [0]⟩) (some ⟨[0x34], [0]⟩) (some ⟨[0x56], [0]⟩)
        (some ⟨[0x78], [0]⟩) [0, 0, 0, 0]).output =
      [0b01010000, 221, 148, 0b00100010] :=
  ⟨quad_transpose_packs_two_bit_groups [0x12] [0x34] [0x56] [0x78] [0] [0] [0] [0] 1
      rfl rfl rfl rfl [0, 0, 0, 0] rfl,
    by decide⟩

theorem quad_transpose_roundtrip_witness :
    (transpose (some ⟨[0xFF], [0]⟩) (some ⟨[0x00], [0]⟩) (some ⟨[0xFF], [0]⟩)
        (some ⟨[0x00], [0]⟩) [9, 9, 9, 9]).ok = true ∧
    (extractLanes (transpose (some ⟨[0xFF], [0]⟩) (some ⟨[0x00], [0]⟩)
        (some ⟨[0xFF], [0]⟩) (some ⟨[0x00], [0]⟩) [9, 9, 9, 9]).output 4 1).getD 0 []
      = [0xFF] :=
  quad_transpose_roundtrip (some ⟨[0xFF], [0]⟩) (some ⟨[0x00], [0]⟩)
    (some ⟨[0xFF], [0]⟩) (some ⟨[0x00], [0]⟩) 1 0 [0xFF] [0] (by norm_num) rfl
    (fun ld h => by cases h; rfl) (fun ld h => by cases h; rfl)
    (fun ld h => by cases h; rfl) (fun ld h => by cases h; rfl)
    (by decide) [9, 9, 9, 9] rfl

theorem quad_transpose_size_invariant_witness :
    transpose (some ⟨[0xAA], [0]⟩) none none none [9, 9, 9, 9, 9] =
      { ok := false, error := some "output size mismatch",
        output := [9, 9, 9, 9, 9] } :=
  quad_transpose_size_invariant.1 (some ⟨[0xAA], [0]⟩) none none none
    [9, 9, 9, 9, 9] (by decide)

theorem quad_transpose_left_padding_witness :
    ((transpose (some ⟨[0xAA, 0xBB, 0xCC, 0xDD, 0xEE, 0xFF], [0xE0, 0]⟩)
        (some ⟨[0x11], [0xE0, 0]⟩) none none (List.replicate 24 0)).ok = true ∧
      (extractLanes (transpose (some ⟨[0xAA, 0xBB, 0xCC, 0xDD, 0xEE, 0xFF], [0xE0, 0]⟩)
          (some ⟨[0x11], [0xE0, 0]⟩) none none (List.replicate 24 0)).output 4 6).getD 1 []
        = (List.range 5).map (fun i => [0xE0, 0].getD (i % 2) 0) ++ [0x11]) ∧
    (extractLanes (transpose (some ⟨[0xAA, 0xBB, 0xCC, 0xDD, 0xEE, 0xFF], [0xE0, 0]⟩)
        (some ⟨[0x11], [0xE0, 0]⟩) none none (List.replicate 24 0)).output 4 6).getD 1 []
      = [0xE0, 0x00, 0xE0, 0x00, 0xE0, 0x11] :=
  ⟨quad_transpose_left_padding (some ⟨[0xAA, 0xBB, 0xCC, 0xDD, 0xEE, 0xFF], [0xE0, 0]⟩)
      (some ⟨[0x11], [0xE0, 0]⟩) none none 1 [0x11] [0xE0, 0] (by norm_num) rfl
      (by simp [slotPadOk]) (by simp [slotPadOk]) trivial trivial (by decide) (by decide)
      (List.replicate 24 0) (by decide),
    by decide⟩

theorem single_active_transaction_witness :
    (∃ rest, (rpTransmit rpActive [1] envFree).2.2 = SpiAction.wait :: rest) ∧
    (∃ rest, (samdTransmit samdActive [1] ⟨false⟩).2.2 = SpiAction.wait :: rest) ∧
    (stub4Acquire stub4Busy 1).2.2 = [SpiAction.wait] :=
  single_active_transaction rpActive [1] envFree samdActive [1] ⟨false⟩ stub4Busy 1
    rfl rfl rfl rfl rfl rfl

theorem transmitAsync_reject_and_empty_noop_witness :
    stub2TransmitAsync stub2Fresh [1, 2] = (false, stub2Fresh) ∧
    stub2TransmitAsync stub2Ready [] = (true, stub2Ready) ∧
    hw8TransmitAsync hw8Fresh [1] envFree = (false, hw8Fresh, []) ∧
    ((hw8TransmitAsync hw8Ready [] envFree).1 = true ∧
      (hw8TransmitAsync hw8Ready [] envFree).2.1.mTransactionActive = false ∧
      (hw8TransmitAsync hw8Ready [] envFree).2.1.dmaWords = hw8Ready.dmaWords ∧
      SpiAction.start ∉ (hw8TransmitAsync hw8Ready [] envFree).2.2) :=
  ⟨transmitAsync_reject_and_empty_noop.1 stub2Fresh [1, 2] rfl,
   transmitAsync_reject_and_empty_noop.2.1 stub2Ready rfl,
   transmitAsync_reject_and_empty_noop.2.2.1 hw8Fresh [1] envFree rfl,
   transmitAsync_reject_and_empty_noop.2.2.2 hw8Ready envFree rfl⟩

theorem waitComplete_blocks_until_done_witness :
    rpWaitComplete rpReady 100 envSlow = (true, rpReady, 0) ∧
    rpWaitComplete rpActive 100 envSlow =
      (true, { rpActive with mTransactionActive := false }, 5) ∧
    stub4WaitComplete stub4Busy 3 =
      (true, { stub4Busy with mBusy := false, mBufferAcquired := false, mCurrentTotalSize := 0 }) :=
  ⟨(waitComplete_blocks_until_done rpReady 100 envSlow stub4Busy 3).1 rfl,
   (waitComplete_blocks_until_done rpActive 100 envSlow stub4Busy 3).2.1 rfl,
   (waitComplete_blocks_until_done rpActive 100 envSlow stub4Busy 3).2.2⟩

theorem begin_idempotent_witness :
    rpBegin rpReady cfgGood envFree = (true, rpReady) ∧
    samdBegin samdReady cfgGood = (true, samdReady) ∧
    stub4Begin stub4Ready cfgGood = (true, stub4Ready) :=
  begin_idempotent rpReady cfgGood envFree samdReady cfgGood stub4Ready cfgGood
    rfl rfl rfl

theorem begin_validation_failure_effects_witness :
    rpBegin rpFresh cfgBadBus envFree = (false, rpFresh) ∧
    rpBegin rpFresh cfgNoClock envFree = (false, rpFresh) ∧
    rpBegin rpFresh cfgNonConsec envFree =
      (false, { rpFresh with mClockPin := 2, mData0Pin := 5, mData1Pin := 7, mData2Pin := 7, mData3Pin := 8, smClaimed := false, programAdded := true, dmaClaimed := false }) ∧
    stub2Begin stub2Fresh cfgBadBus = (false, stub2Fresh) :=
  ⟨begin_validation_failure_effects.1 rpFresh cfgBadBus envFree rfl (by decide) (by decide),
   begin_validation_failure_effects.2.1 rpFresh cfgNoClock envFree rfl (by decide) (by decide),
   begin_validation_failure_effects.2.2.1 rpFresh cfgNonConsec envFree rfl (by decide)
     (by decide) rfl rfl (by decide),
   begin_validation_failure_effects.2.2.2 stub2Fresh cfgBadBus rfl (by decide) (by decide)⟩

/-- Configuration matching the stub factory's bus 2. -/
def cfgBus2 : SpiConfig := { cfgGood with bus_num := 2 }

/-- A stub state driven through the public API into a busy transmission. -/
def stub4Chain : Stub4State :=
  (stub4Transmit (stub4Acquire (stub4Begin (stub4Initial 2) cfgBus2).2 1).2.1).2

theorem isBusy_false_when_uninitialized_witness :
    rpIsBusy { rpActive with mInitialized := false } envFree = false ∧
    samdIsBusy { samdActive with mInitialized := false } = false ∧
    stub4IsBusy (stub4End stub4Chain) = false :=
  ⟨isBusy_false_when_uninitialized.1 { rpActive with mInitialized := false } envFree rfl,
   isBusy_false_when_uninitialized.2.1 { samdActive with mInitialized := false } rfl,
   isBusy_false_when_uninitialized.2.2 (stub4End stub4Chain)
     (Stub4Reachable.stepEnd _ (Stub4Reachable.stepTransmit _
       (Stub4Reachable.stepAcquire _ 1 (Stub4Reachable.stepBegin _ cfgBus2
         (Stub4Reachable.mkInit 2))))) rfl⟩

end FastLED
